import Mathlib

/-!
Verification of the Nexus Pricing ML forecasting service
(src/ml/forecasting.py) against its natural-language specification.

Modelling conventions, used throughout:

* Monetary and series values are rationals (`ℚ`); the Python floats are
  modelled by exact rational arithmetic.
* Calendar dates are day numbers (`Nat`): days elapsed since 1970-01-01.
  Month and weekday are recovered from the day number by the standard
  civil-calendar conversion (`civilFromDays` below); pandas numbers
  weekdays Monday = 0, so 1970-01-01 (a Thursday) has weekday 3.
* The external numerical libraries (keras/tensorflow gradient training,
  the Prophet decomposition fit, sklearn metric helpers) are out of scope
  per the specification; their fitting steps are abstracted as oracle
  function parameters.  Everything the repository's own code does around
  them (scaling, window construction, splitting, the autoregressive loop,
  filtering, job bookkeeping, the fallback generator, price rules) is
  modelled faithfully from the source.
* Python exceptions are modelled by `Except`: a function that can raise
  returns `Except MLError α`.
-/

/-- Failure modes of the service, as named by the specification's error
taxonomy (§7).  The source raises plain Python exceptions at the
corresponding places; each constructor records one such place. -/
inductive MLError where
  /-- sklearn MinMaxScaler.fit_transform on an empty array
      (reached from prepare_data when the series is empty). -/
  | emptyTrainingData : MLError
  /-- the failure at src line 248, X.shape[1] on an empty example array,
      reached exactly when the sliding window produced no examples;
      the spec names it InsufficientDataError. -/
  | insufficientData : MLError
  /-- the ValueError raised at src lines 166 and 300 when forecast is
      called with self.model still None; the spec names it
      ModelNotTrainedError. -/
  | modelNotTrained : MLError
  /-- the 404 raised at src line 446 for an unknown training job id;
      the spec names it JobNotFoundError. -/
  | jobNotFound : MLError
deriving DecidableEq, Repr

/-- Minimum of a list of rationals (sklearn data_min over the fit data);
the empty case is never reached by the source, which guards emptiness. -/
def listMin : List ℚ → ℚ
  | [] => 0
  | x :: xs => xs.foldl min x

/-- Maximum of a list of rationals (sklearn data_max over the fit data). -/
def listMax : List ℚ → ℚ
  | [] => 0
  | x :: xs => xs.foldl max x

/-- sklearn's handling of a zero data range in MinMaxScaler: a zero
range is replaced by 1 so that scaling is well defined. -/
def handleZeros (r : ℚ) : ℚ := if r = 0 then 1 else r

/-- MinMaxScaler.fit_transform with feature range [0,1] over the whole
series: x ↦ (x - min) / (max - min), zero range replaced by 1
(src line 197: scaled_data = self.scaler.fit_transform(...)). -/
def minMaxScale (data : List ℚ) : List ℚ :=
  data.map fun x => (x - listMin data) / handleZeros (listMax data - listMin data)

/-- The fitted state of the recurrent network together with the fitted
scaler parameters.  The network itself is external (keras); its predict
function is carried abstractly. -/
structure LSTMModel where
  predict : List ℚ → ℚ
  dataMin : ℚ
  dataRange : ℚ

/-- State of LSTMForecaster (src lines 186-192): the optional fitted
model (None until a successful train or load) and the window length
(sequence_length, default 30).  In the source the fitted scaler lives in
a separate attribute; it is set exactly when the model is, so the two
are bundled here into `LSTMModel`. -/
structure LSTMForecaster where
  sequence_length : Nat
  model : Option LSTMModel

/-- LSTMForecaster.__init__ (src line 189), sequence_length defaults
to 30. -/
def LSTMForecaster.init (sequence_length : Nat := 30) : LSTMForecaster :=
  { sequence_length := sequence_length, model := none }

/-- LSTMForecaster.prepare_data (src lines 194-205): fit the min-max
scaler over the series, normalize it, and build the sliding-window
examples: for every i in range(len(scaled) - L), input = scaled[i:i+L]
and target = scaled[i+L].  Returns the fitted scaler parameters
(data min, handled range) and the (input, target) pairs.  On an empty
series the scaler fit itself raises. -/
def LSTMForecaster.prepare_data (f : LSTMForecaster) (data : List ℚ) :
    Except MLError ((ℚ × ℚ) × List (List ℚ × ℚ)) :=
  if data.isEmpty then .error .emptyTrainingData
  else
    let scaled := minMaxScale data
    .ok ((listMin data, handleZeros (listMax data - listMin data)),
      (List.range (scaled.length - f.sequence_length)).map fun i =>
        ((scaled.drop i).take f.sequence_length, scaled.getD (i + f.sequence_length) 0))

/-- LSTMForecaster.train (src lines 226-286): prepare the data, split
the examples chronologically at int(len(X) * 0.8), build and fit the
network (external, abstracted by the oracle `fitL` taking the training
and validation sets), and store the fitted model together with the
fitted scaler.  When the sliding window produced no examples the source
fails at X.shape[1] (src line 248) before build_model runs: modelled as
`MLError.insufficientData`.  The in-sample metric computation over the
validation split (sklearn, src lines 271-278) is external numeric code
and is not modelled; no claim refers to its value. -/
def LSTMForecaster.train (fitL : List (List ℚ × ℚ) → List (List ℚ × ℚ) → List ℚ → ℚ)
    (f : LSTMForecaster) (data : List ℚ) : Except MLError LSTMForecaster :=
  match f.prepare_data data with
  | .error e => .error e
  | .ok ((dmin, drange), pairs) =>
    if pairs.length = 0 then .error .insufficientData
    else
      let split_idx := pairs.length * 4 / 5
      let trainSet := pairs.take split_idx
      let valSet := pairs.drop split_idx
      let fitted : LSTMModel := ⟨fitL trainSet valSet, dmin, drange⟩
      .ok { f with model := some fitted }

/-- LSTMForecaster.load (src lines 329-333): restore the fitted model
and scaler from a persisted artifact (keras/joblib deserialization is
external; the artifact value is received directly). -/
def LSTMForecaster.load (f : LSTMForecaster) (artifact : LSTMModel) : LSTMForecaster :=
  { f with model := some artifact }

/-- The autoregressive prediction loop of LSTMForecaster.forecast
(src lines 308-315): `periods` times, predict the next normalized value
from the current window, record it, and slide the window by dropping its
oldest entry and appending the prediction. -/
def autoregressive (predict : List ℚ → ℚ) : Nat → List ℚ → List ℚ
  | 0, _ => []
  | n + 1, w =>
    let p := predict w
    p :: autoregressive predict n (w.drop 1 ++ [p])

/-- LSTMForecaster.forecast (src lines 288-320): raise if no model is
fitted; otherwise normalize the given raw window through the fitted
scaler, keep its last `sequence_length` entries, run the autoregressive
loop, and inverse-transform the whole predicted sequence at the end. -/
def LSTMForecaster.forecast (f : LSTMForecaster) (last_sequence : List ℚ) (periods : Nat) :
    Except MLError (List ℚ) :=
  match f.model with
  | none => .error .modelNotTrained
  | some m =>
    let scaled := last_sequence.map fun x => (x - m.dataMin) / m.dataRange
    let current := scaled.drop (scaled.length - f.sequence_length)
    let preds := autoregressive m.predict periods current
    .ok (preds.map fun p => p * m.dataRange + m.dataMin)

/-- The sequence of windows visited by the autoregressive loop: window 0
is the initial window, window (k+1) drops the oldest entry of window k
and appends the model's prediction on window k.  This is the
specification-side description of the loop, used to state that each
prediction depends only on the initial window and earlier predictions. -/
def windowSeq (predict : List ℚ → ℚ) (w0 : List ℚ) : Nat → List ℚ
  | 0 => w0
  | k + 1 =>
    let w := windowSeq predict w0 k
    w.drop 1 ++ [predict w]

/-- Conversion of a day number (days since 1970-01-01) to the civil
(year, month, day) triple, the standard Gregorian-calendar algorithm on
natural numbers.  It models the calendar fields (pandas Timestamp.month
etc.) of the dates the service iterates over. -/
def civilFromDays (z : Nat) : Nat × Nat × Nat :=
  let z := z + 719468
  let era := z / 146097
  let doe := z % 146097
  let yoe := (doe - doe / 1460 + doe / 36524 - doe / 146096) / 365
  let y := yoe + era * 400
  let doy := doe - (365 * yoe + yoe / 4 - yoe / 100)
  let mp := (5 * doy + 2) / 153
  let d := doy - (153 * mp + 2) / 5 + 1
  let m := if mp < 10 then mp + 3 else mp - 9
  (if m ≤ 2 then y + 1 else y, m, d)

/-- Conversion of a civil (year, month, day) date to its day number
(days since 1970-01-01), inverse of `civilFromDays` for dates from 1970
on; used only to name concrete dates in concrete scenarios. -/
def daysFromCivil (y m d : Nat) : Nat :=
  let y := if m ≤ 2 then y - 1 else y
  let era := y / 400
  let yoe := y % 400
  let doy := (153 * (if 2 < m then m - 3 else m + 9) + 2) / 5 + d - 1
  let doe := yoe * 365 + yoe / 4 - yoe / 100 + doy
  era * 146097 + doe - 719468

/-- Month (1..12) of a day number. -/
def dateMonth (z : Nat) : Nat := (civilFromDays z).2.1

/-- Weekday of a day number in the pandas convention Monday = 0 ...
Sunday = 6 (Timestamp.dayofweek); 1970-01-01 was a Thursday. -/
def dayOfWeek (z : Nat) : Nat := (z + 3) % 7

/-- A forecast point of the service (pydantic ForecastPoint, src lines
60-65), dates as day numbers and values as rationals.  The source marks
the bounds optional but both constructing sites (the Prophet branch and
the fallback generator) always populate them, so they are plain fields
here. -/
structure ForecastPointQ where
  date : Nat
  predictedValue : ℚ
  lowerBound : ℚ
  upperBound : ℚ
  confidence : ℚ
deriving DecidableEq, Repr

/-- The per-month seasonal multiplier table of the fallback generator
(seasonal_map, src lines 572-575).  The source dict is only ever indexed
at months 1..12; other arguments return 0. -/
def seasonal_map : Nat → ℚ
  | 1 => 85 / 100
  | 2 => 90 / 100
  | 3 => 95 / 100
  | 4 => 105 / 100
  | 5 => 115 / 100
  | 6 => 130 / 100
  | 7 => 135 / 100
  | 8 => 135 / 100
  | 9 => 120 / 100
  | 10 => 110 / 100
  | 11 => 95 / 100
  | 12 => 100 / 100
  | _ => 0

/-- The weekend multiplier of the fallback generator (src line 579):
1.2 on Saturday/Sunday (dayofweek ≥ 5), else 1.0. -/
def weekendFactor (z : Nat) : ℚ := if 5 ≤ dayOfWeek z then 12 / 10 else 1

/-- One loop iteration body of generate_fallback_forecast (src lines
563-590): the point produced for day `z`. -/
def fallbackPoint (z : Nat) : ForecastPointQ :=
  let base_occupancy : ℚ := 1 / 2
  let seasonal_factor := seasonal_map (dateMonth z)
  let weekend_factor := weekendFactor z
  let predicted_value := base_occupancy * seasonal_factor * weekend_factor
  let clamped := min (max predicted_value 0) 1
  { date := z
    predictedValue := clamped
    lowerBound := max (clamped - 1 / 10) 0
    upperBound := min (clamped + 1 / 10) 1
    confidence := 1 / 2 }

/-- The while loop of generate_fallback_forecast (src lines 561-592),
written with an explicit fuel argument that bounds the number of
iterations; the wrapper below supplies fuel end + 1 - start, which is
exactly the iteration count of the source loop, so the guard
current ≤ end is still what terminates it. -/
def fallbackLoop : Nat → Nat → Nat → List ForecastPointQ
  | 0, _, _ => []
  | fuel + 1, current_date, end_date =>
    if current_date ≤ end_date then
      fallbackPoint current_date :: fallbackLoop fuel (current_date + 1) end_date
    else []

/-- generate_fallback_forecast (src lines 556-594): one point per
calendar day from start_date to end_date inclusive. -/
def generate_fallback_forecast (start_date end_date : Nat) : List ForecastPointQ :=
  fallbackLoop (end_date + 1 - start_date) start_date end_date

/-- The context mapping of an optimize-price request (src lines 93-96);
only the two keys the handler reads are modelled, each optional. -/
structure OptimizeContext where
  basePrice : Option ℚ
  currentOccupancy : Option ℚ

/-- Response of the optimize-price endpoint (src lines 99-101). -/
structure OptimizePriceResponse where
  recommendedPrice : ℚ
  confidence : ℚ
deriving DecidableEq, Repr

/-- optimize_price (src lines 460-489): default basePrice 100 and
occupancy 0.5 for missing context keys, pick the multiplier from the
occupancy threshold ladder, recommended price = base price *
multiplier, confidence 0.75. -/
def optimize_price (ctx : OptimizeContext) : OptimizePriceResponse :=
  let base_price := ctx.basePrice.getD 100
  let occupancy := ctx.currentOccupancy.getD (1 / 2)
  let multiplier : ℚ :=
    if 9 / 10 ≤ occupancy then 3 / 2
    else if 7 / 10 ≤ occupancy then 12 / 10
    else if 1 / 2 ≤ occupancy then 1
    else if 3 / 10 ≤ occupancy then 9 / 10
    else 85 / 100
  { recommendedPrice := base_price * multiplier, confidence := 75 / 100 }

/-- Status of a training job; the source stores the status as one of
exactly these four strings. -/
inductive JobStatus where
  | PENDING
  | IN_PROGRESS
  | COMPLETED
  | FAILED
deriving DecidableEq, Repr

/-- Model type of a training request (pydantic pattern at src line 78). -/
inductive ModelType where
  | prophet
  | lstm
  | optimization
deriving DecidableEq, Repr

/-- One entry of the training_jobs registry (src lines 420-424 and the
updates at 502, 539-545, 549-553).  Keys absent from the Python dict are
`none`. -/
structure TrainingJob where
  status : JobStatus
  modelType : ModelType
  startedAt : String
  accuracy : Option ℚ
  mape : Option ℚ
  errorMessage : Option String
  modelPath : Option String

/-- Outcome data of a successful run of the try block of
train_model_background: the metrics returned by the strategy's train and
the artifact path it was saved to (src lines 513-536). -/
structure TrainOutcome where
  accuracy : ℚ
  mape : ℚ
  modelPath : String

/-- The job record created by the train endpoint at submission
(src lines 417-424): status PENDING, nothing else recorded yet. -/
def train_model (mt : ModelType) (startedAt : String) : TrainingJob :=
  { status := .PENDING
    modelType := mt
    startedAt := startedAt
    accuracy := none
    mape := none
    errorMessage := none
    modelPath := none }

/-- train_model_background (src lines 497-553) as the sequence of
registry states it writes for its job, in order.  The entire try block
after the IN_PROGRESS write — data-frame preparation, strategy dispatch
and training, artifact persistence — is abstracted by its outcome
`body`: `Except.ok` with metrics and path if it ran through,
`Except.error` with the exception message if any step raised.  The
except handler (src lines 547-553) turns any such error into a FAILED
record carrying the message; nothing escapes the handler, which is why
this function is total. -/
def train_model_background (job : TrainingJob) (body : Except String TrainOutcome) :
    List TrainingJob :=
  let j1 := { job with status := JobStatus.IN_PROGRESS }
  match body with
  | .ok r =>
    let j2 := { j1 with status := JobStatus.COMPLETED, accuracy := some r.accuracy,
                        mape := some r.mape, modelPath := some r.modelPath }
    [j1, j2]
  | .error e =>
    let j2 := { j1 with status := JobStatus.FAILED, errorMessage := some e }
    [j1, j2]

/-- The successive status values a single job goes through when the
train endpoint creates it and its background task then runs: the
submission state followed by every state the background task writes. -/
def jobStatusTrace (mt : ModelType) (startedAt : String)
    (body : Except String TrainOutcome) : List JobStatus :=
  let j0 := train_model mt startedAt
  (j0 :: train_model_background j0 body).map (fun j => j.status)

/-- Response of the train-status endpoint (pydantic TrainingResponse,
src lines 84-90). -/
structure TrainingResponseQ where
  jobId : String
  modelType : ModelType
  status : JobStatus
  accuracy : Option ℚ
  mape : Option ℚ
  errorMessage : Option String

/-- get_training_status (src lines 440-457): look the job up in the
registry (404 when absent) and report its current status fields. -/
def get_training_status (registry : List (String × TrainingJob)) (job_id : String) :
    Except MLError TrainingResponseQ :=
  match registry.lookup job_id with
  | none => .error .jobNotFound
  | some job =>
    .ok { jobId := job_id, modelType := job.modelType, status := job.status,
          accuracy := job.accuracy, mape := job.mape, errorMessage := job.errorMessage }

/-- The forward status chain of the job lifecycle: the only transitions
any execution performs.  PENDING steps to IN_PROGRESS, IN_PROGRESS steps
to a terminal state; the terminal states step nowhere. -/
def statusStep : JobStatus → JobStatus → Bool
  | .PENDING, .IN_PROGRESS => true
  | .IN_PROGRESS, .COMPLETED => true
  | .IN_PROGRESS, .FAILED => true
  | _, _ => false

/-- Terminal job statuses. -/
def isTerminal : JobStatus → Bool
  | .COMPLETED => true
  | .FAILED => true
  | _ => false

/-- One predicted row of the Prophet forecast frame: the central
estimate and the uncertainty interval (columns yhat, yhat_lower,
yhat_upper). -/
structure ProphetPrediction where
  yhat : ℚ
  yhat_lower : ℚ
  yhat_upper : ℚ

/-- Result of the external Prophet fit: the per-date prediction function
the fitted decomposition defines, together with the in-sample metrics
the source computes from it over the training frame (src lines
142-144); the metric values themselves are external numeric results. -/
structure ProphetFitResult where
  predict : Nat → ProphetPrediction
  mape : ℚ
  rmse : ℚ

/-- A fitted Prophet model as the source interacts with it: the dates of
the training history (kept by the library as the sorted distinct ds
values, used by make_future_dataframe) and the prediction function. -/
structure ProphetModel where
  historyDates : List Nat
  predict : Nat → ProphetPrediction

/-- Training metrics returned by ProphetForecaster.train (src lines
148-152): accuracy is defined as 1 - MAPE. -/
structure TrainMetrics where
  mape : ℚ
  rmse : ℚ
  accuracy : ℚ

/-- State of ProphetForecaster (src lines 105-110): just the optional
fitted model (None until a successful train or load). -/
structure ProphetForecaster where
  model : Option ProphetModel

/-- ProphetForecaster.__init__ (src lines 108-110). -/
def ProphetForecaster.init : ProphetForecaster := { model := none }

/-- The history dates a Prophet model retains from its training frame:
the distinct ds values in ascending order (pandas unique, then sorted). -/
def history_dates (df : List (Nat × ℚ)) : List Nat :=
  ((df.map Prod.fst).dedup).insertionSort (· ≤ ·)

/-- ProphetForecaster.train (src lines 112-152): fit the decomposition
over the full frame (external, abstracted by the oracle `fitP`), keep
the fitted model, and return the metrics with accuracy = 1 - MAPE. -/
def ProphetForecaster.train (fitP : List (Nat × ℚ) → ProphetFitResult)
    (f : ProphetForecaster) (df : List (Nat × ℚ)) : ProphetForecaster × TrainMetrics :=
  let r := fitP df
  ({ f with model := some { historyDates := history_dates df, predict := r.predict } },
   { mape := r.mape, rmse := r.rmse, accuracy := 1 - r.mape })

/-- ProphetForecaster.load (src lines 179-182): restore a fitted model
from a persisted artifact (joblib deserialization is external; the
artifact value is received directly). -/
def ProphetForecaster.load (f : ProphetForecaster) (artifact : ProphetModel) :
    ProphetForecaster :=
  { f with model := some artifact }

/-- Modelled from the spec (§4.2: forecasting extends the fitted
timeline by `periods` additional points at daily frequency): the
external Prophet library's make_future_dataframe, whose frame is the
model's history dates followed by `periods` consecutive days after the
last history date. -/
def make_future_dataframe (historyDates : List Nat) (periods : Nat) : List Nat :=
  historyDates ++ (List.range periods).map fun i => historyDates.foldl max 0 + 1 + i

/-- ProphetForecaster.forecast (src lines 154-171): raise if no model is
fitted; otherwise predict over the extended timeline, returning one row
per timeline date. -/
def ProphetForecaster.forecast (f : ProphetForecaster) (periods : Nat) :
    Except MLError (List (Nat × ProphetPrediction)) :=
  match f.model with
  | none => .error .modelNotTrained
  | some m =>
    .ok ((make_future_dataframe m.historyDates periods).map fun d => (d, m.predict d))

/-- A forecast request (pydantic ForecastRequest, src lines 52-57),
dates as day numbers; historicalData is optional and may be empty. -/
structure ForecastRequestQ where
  propertyId : String
  startDate : Nat
  endDate : Nat
  historicalData : Option (List (Nat × ℚ))

/-- Body of a forecast response (pydantic ForecastResponse, src lines
68-74), without the propertyId/modelType/timestamp echo fields no claim
refers to. -/
structure ForecastResponseQ where
  forecast : List ForecastPointQ
  accuracy : Option ℚ
  mape : Option ℚ

/-- generate_forecast (src lines 347-409): periods = days between start
and end inclusive; with non-empty historical data, train a fresh
ProphetForecaster on it, forecast, and keep exactly the rows of the
extended timeline whose date falls in [startDate, endDate], each with
confidence 0.8; with no (or empty) historical data, fall back to
generate_fallback_forecast with fixed accuracy 0.8 and MAPE 0.2. -/
def generate_forecast (fitP : List (Nat × ℚ) → ProphetFitResult)
    (request : ForecastRequestQ) : Except MLError ForecastResponseQ :=
  let periods := request.endDate + 1 - request.startDate
  match request.historicalData with
  | none =>
    .ok { forecast := generate_fallback_forecast request.startDate request.endDate,
          accuracy := some (8 / 10), mape := some (2 / 10) }
  | some [] =>
    .ok { forecast := generate_fallback_forecast request.startDate request.endDate,
          accuracy := some (8 / 10), mape := some (2 / 10) }
  | some df =>
    let tm := ProphetForecaster.train fitP ProphetForecaster.init df
    match tm.1.forecast periods with
    | .error e => .error e
    | .ok rows =>
      let pts := rows.filterMap fun r =>
        if request.startDate ≤ r.1 ∧ r.1 ≤ request.endDate then
          some { date := r.1, predictedValue := r.2.yhat, lowerBound := r.2.yhat_lower,
                 upperBound := r.2.yhat_upper, confidence := 8 / 10 }
        else none
      .ok { forecast := pts, accuracy := some tm.2.accuracy, mape := some tm.2.mape }

/-! ## Helper lemmas -/

theorem isEmpty_false_of_pos {data : List ℚ} (h : 0 < data.length) :
    data.isEmpty = false := by
  cases data with
  | nil => simp at h
  | cons a l => simp

theorem minMaxScale_length (data : List ℚ) : (minMaxScale data).length = data.length := by
  simp [minMaxScale]

/-- LSTMForecaster.train on any series too short for the window fails
with the insufficient-data error, independently of the fitting oracle. -/
theorem lstm_train_short_series
    (fitL : List (List ℚ × ℚ) → List (List ℚ × ℚ) → List ℚ → ℚ)
    (f : LSTMForecaster) (data : List ℚ)
    (hpos : 0 < data.length) (hle : data.length ≤ f.sequence_length) :
    LSTMForecaster.train fitL f data = .error .insufficientData := by
  unfold LSTMForecaster.train LSTMForecaster.prepare_data
  simp [isEmpty_false_of_pos hpos, minMaxScale_length, Nat.sub_eq_zero_of_le hle]

/-- C1: for every training series of length N and window length L
(default 30) with N ≤ L, sequence-window training fails with the
insufficient-data error, raised before any model is built or fitted (the
result does not depend on the fitting oracle, which is never invoked);
in particular a training request with 5 observations and the default
window length 30 fails this way. -/
theorem lstm_train_fails_when_series_at_most_window
    (fitL : List (List ℚ × ℚ) → List (List ℚ × ℚ) → List ℚ → ℚ)
    (f : LSTMForecaster) (data : List ℚ)
    (hpos : 0 < data.length) (hle : data.length ≤ f.sequence_length) :
    LSTMForecaster.train fitL f data = .error .insufficientData ∧
    LSTMForecaster.train fitL LSTMForecaster.init [1, 2, 3, 4, 5] =
      .error .insufficientData :=
  ⟨lstm_train_short_series fitL f data hpos hle,
   lstm_train_short_series fitL LSTMForecaster.init [1, 2, 3, 4, 5]
     (by decide) (by decide)⟩

/-- Witness for C1: the theorem applied to the concrete scenario of the
claim, 5 observations against the default window length 30. -/
theorem lstm_train_fails_when_series_at_most_window_witness :
    0 < ([1, 2, 3, 4, 5] : List ℚ).length ∧
    ([1, 2, 3, 4, 5] : List ℚ).length ≤ LSTMForecaster.init.sequence_length ∧
    LSTMForecaster.train (fun _ _ _ => 0) LSTMForecaster.init [1, 2, 3, 4, 5] =
      .error .insufficientData :=
  ⟨by decide, by decide,
   (lstm_train_fails_when_series_at_most_window (fun _ _ _ => 0)
     LSTMForecaster.init [1, 2, 3, 4, 5] (by decide) (by decide)).1⟩

/-- C2: for every series of length N and window length L, the
sliding-window preparation produces exactly max(0, N - L) (input,
target) pairs, and for each index i the input is the normalized values
at positions [i, i+L) and the target is the normalized value at
position i+L.  (The series is non-empty, as the data model requires of
a training series; on the empty series the scaler fit itself raises.) -/
theorem prepare_data_sliding_window
    (f : LSTMForecaster) (data : List ℚ) (hpos : 0 < data.length) :
    ∃ sp pairs, f.prepare_data data = .ok (sp, pairs) ∧
      (pairs.length : ℤ) = max 0 ((data.length : ℤ) - (f.sequence_length : ℤ)) ∧
      ∀ i : Nat, ∀ hi : i < pairs.length,
        (∀ j : Nat, j < f.sequence_length →
          ((pairs.get ⟨i, hi⟩).1)[j]? = (minMaxScale data)[i + j]?) ∧
        (minMaxScale data)[i + f.sequence_length]? = some (pairs.get ⟨i, hi⟩).2 := by
  refine ⟨(listMin data, handleZeros (listMax data - listMin data)),
    (List.range ((minMaxScale data).length - f.sequence_length)).map fun i =>
      ((minMaxScale data).drop i |>.take f.sequence_length,
        (minMaxScale data).getD (i + f.sequence_length) 0), ?_, ?_, ?_⟩
  · unfold LSTMForecaster.prepare_data
    simp [isEmpty_false_of_pos hpos]
  · simp only [List.length_map, List.length_range, minMaxScale_length]
    omega
  · intro i hi
    simp only [List.length_map, List.length_range, minMaxScale_length] at hi
    have hget :
        ((List.range ((minMaxScale data).length - f.sequence_length)).map fun i =>
          ((minMaxScale data).drop i |>.take f.sequence_length,
            (minMaxScale data).getD (i + f.sequence_length) 0)).get
          ⟨i, by simp [minMaxScale_length]; omega⟩ =
        ((minMaxScale data).drop i |>.take f.sequence_length,
          (minMaxScale data).getD (i + f.sequence_length) 0) := by
      simp
    rw [hget]
    have hiL : i + f.sequence_length < (minMaxScale data).length := by
      rw [minMaxScale_length]; omega
    constructor
    · intro j hj
      rw [List.getElem?_take_of_lt hj, List.getElem?_drop]
    · rw [List.getElem?_eq_getElem hiL, List.getD_eq_getElem (minMaxScale data) 0 hiL]

/-- Witness for C2: the theorem applied to a concrete series of length
3 with window length 2, which yields exactly one pair. -/
theorem prepare_data_sliding_window_witness :
    0 < ([3, 1, 2] : List ℚ).length ∧
    (∃ sp pairs, (LSTMForecaster.init 2).prepare_data [3, 1, 2] = .ok (sp, pairs) ∧
      (pairs.length : ℤ) =
        max 0 ((([3, 1, 2] : List ℚ).length : ℤ) -
          ((LSTMForecaster.init 2).sequence_length : ℤ)) ∧
      ∀ i : Nat, ∀ hi : i < pairs.length,
        (∀ j : Nat, j < (LSTMForecaster.init 2).sequence_length →
          ((pairs.get ⟨i, hi⟩).1)[j]? = (minMaxScale [3, 1, 2])[i + j]?) ∧
        (minMaxScale [3, 1, 2])[i + (LSTMForecaster.init 2).sequence_length]? =
          some (pairs.get ⟨i, hi⟩).2) :=
  ⟨by decide, prepare_data_sliding_window (LSTMForecaster.init 2) [3, 1, 2] (by decide)⟩

theorem windowSeq_shift (P : List ℚ → ℚ) (w : List ℚ) (k : Nat) :
    windowSeq P (w.drop 1 ++ [P w]) k = windowSeq P w (k + 1) := by
  induction k with
  | zero => rfl
  | succ k ih => simp only [windowSeq, ih]

/-- The autoregressive loop of the sequence-window forecaster computes,
step by step, the model's prediction on the k-th slid window. -/
theorem autoregressive_eq (P : List ℚ → ℚ) (n : Nat) (w : List ℚ) :
    autoregressive P n w = (List.range n).map fun k => P (windowSeq P w k) := by
  induction n generalizing w with
  | zero => rfl
  | succ n ih =>
    rw [autoregressive, List.range_succ_eq_map, List.map_cons, List.map_map]
    simp only [ih, windowSeq_shift]
    rfl

/-- C3: for every trained sequence-window forecaster, every input window
of at least sequence_length raw values, and every number of periods,
forecasting returns exactly `periods` values; the k-th prediction is the
model applied to the k-th window, where window 0 is the normalized last
sequence_length raw values and window k+1 drops the oldest entry of
window k and appends the model's prediction on window k, so each
prediction depends only on the initial window and earlier predictions;
the whole predicted sequence is inverse-transformed through the fitted
scaler at the end. -/
theorem lstm_forecast_autoregressive
    (f : LSTMForecaster) (m : LSTMModel) (last_sequence : List ℚ) (periods : Nat)
    (hm : f.model = some m) (hlen : f.sequence_length ≤ last_sequence.length) :
    ∃ out, f.forecast last_sequence periods = .ok out ∧
      out.length = periods ∧
      (let scaled := last_sequence.map fun x => (x - m.dataMin) / m.dataRange
       let w0 := scaled.drop (scaled.length - f.sequence_length)
       w0.length = f.sequence_length ∧
       out = (List.range periods).map fun k =>
         m.predict (windowSeq m.predict w0 k) * m.dataRange + m.dataMin) := by
  refine ⟨_, by rw [LSTMForecaster.forecast, hm], ?_, ?_, ?_⟩
  · simp [autoregressive_eq]
  · simp only [List.length_drop, List.length_map]
    omega
  · rw [autoregressive_eq, List.map_map]
    rfl

/-- Witness for C3: the theorem applied to a concrete trained forecaster
with window length 2, a raw window of 3 values, and 2 periods. -/
theorem lstm_forecast_autoregressive_witness :
    ∃ out,
      LSTMForecaster.forecast
        ⟨2, some ⟨fun w => w.headD 0, 0, 1⟩⟩ [1, 2, 3] 2 = .ok out ∧
      out.length = 2 ∧
      (let scaled := ([1, 2, 3] : List ℚ).map fun x => (x - 0) / 1
       let w0 := scaled.drop (scaled.length - 2)
       w0.length = 2 ∧
       out = (List.range 2).map fun k =>
         (fun w => w.headD 0) (windowSeq (fun w => w.headD 0) w0 k) * 1 + 0) :=
  lstm_forecast_autoregressive ⟨2, some ⟨fun w => w.headD 0, 0, 1⟩⟩
    ⟨fun w => w.headD 0, 0, 1⟩ [1, 2, 3] 2 rfl (by decide)

/-- With fuel end + 1 - start, the fallback loop is the map of the point
body over the consecutive day numbers from start to end. -/
theorem fallbackLoop_eq (fuel : Nat) : ∀ s e : Nat, e + 1 - s = fuel →
    fallbackLoop fuel s e = (List.range' s fuel).map fallbackPoint := by
  induction fuel with
  | zero => intro s e h; rfl
  | succ n ih =>
    intro s e h
    have hs : s ≤ e := by omega
    rw [fallbackLoop, if_pos hs, List.range'_succ, List.map_cons, ih (s + 1) e (by omega)]

theorem generate_fallback_forecast_eq (s e : Nat) :
    generate_fallback_forecast s e = (List.range' s (e + 1 - s)).map fallbackPoint :=
  fallbackLoop_eq (e + 1 - s) s e rfl

theorem fallbackPoint_on_july_saturday :
    fallbackPoint 19910 = ⟨19910, 81 / 100, 71 / 100, 91 / 100, 1 / 2⟩ := by
  have hm : dateMonth 19910 = 7 := by decide
  have hw : dayOfWeek 19910 = 5 := by decide
  rw [fallbackPoint, weekendFactor, hm, hw]
  norm_num [seasonal_map, min_def, max_def]

/-- C4: for every date range with start ≤ end, the fallback generator
produces exactly (end - start) + 1 forecast points, one per calendar day
in ascending order (the i-th point carries day start + i), each with
predicted value clamp(0.5 * seasonalFactor(month) * weekendFactor, 0, 1)
from the fixed month table and the weekend factor, and confidence 0.5;
in particular the sole point for 2024-07-06 (day number 19910, a July
Saturday) has predicted value 0.81, lower bound 0.71 and upper bound
0.91. -/
theorem fallback_forecast_per_day (s e : Nat) (h : s ≤ e) :
    (generate_fallback_forecast s e).length = e - s + 1 ∧
    (∀ i : Nat, ∀ hi : i < (generate_fallback_forecast s e).length,
      ((generate_fallback_forecast s e).get ⟨i, hi⟩).date = s + i ∧
      ((generate_fallback_forecast s e).get ⟨i, hi⟩).predictedValue =
        min (max (1 / 2 * seasonal_map (dateMonth (s + i)) * weekendFactor (s + i)) 0) 1 ∧
      ((generate_fallback_forecast s e).get ⟨i, hi⟩).confidence = 1 / 2) ∧
    daysFromCivil 2024 7 6 = 19910 ∧
    dateMonth 19910 = 7 ∧ dayOfWeek 19910 = 5 ∧
    generate_fallback_forecast 19910 19910 =
      [⟨19910, 81 / 100, 71 / 100, 91 / 100, 1 / 2⟩] := by
  refine ⟨?_, ?_, by decide, by decide, by decide, ?_⟩
  · rw [generate_fallback_forecast_eq]
    simp only [List.length_map, List.length_range']
    omega
  · intro i hi
    have hi' : i < e + 1 - s := by
      simpa [generate_fallback_forecast_eq] using hi
    have hget : (generate_fallback_forecast s e).get ⟨i, hi⟩ = fallbackPoint (s + i) := by
      simp [generate_fallback_forecast_eq, List.getElem_range']
    rw [hget]
    exact ⟨rfl, rfl, rfl⟩
  · rw [generate_fallback_forecast_eq]
    norm_num [List.range'_succ, fallbackPoint_on_july_saturday]

/-- Witness for C4: the theorem applied to the concrete one-day range of
2024-07-06. -/
theorem fallback_forecast_per_day_witness :
    (19910 : Nat) ≤ 19910 ∧
    ((generate_fallback_forecast 19910 19910).length = 19910 - 19910 + 1 ∧
    (∀ i : Nat, ∀ hi : i < (generate_fallback_forecast 19910 19910).length,
      ((generate_fallback_forecast 19910 19910).get ⟨i, hi⟩).date = 19910 + i ∧
      ((generate_fallback_forecast 19910 19910).get ⟨i, hi⟩).predictedValue =
        min (max (1 / 2 * seasonal_map (dateMonth (19910 + i)) *
          weekendFactor (19910 + i)) 0) 1 ∧
      ((generate_fallback_forecast 19910 19910).get ⟨i, hi⟩).confidence = 1 / 2) ∧
    daysFromCivil 2024 7 6 = 19910 ∧
    dateMonth 19910 = 7 ∧ dayOfWeek 19910 = 5 ∧
    generate_fallback_forecast 19910 19910 =
      [⟨19910, 81 / 100, 71 / 100, 91 / 100, 1 / 2⟩]) :=
  ⟨by decide, fallback_forecast_per_day 19910 19910 (by decide)⟩

/-- C5: for every price-optimization request, the recommended price is
the (defaulted) base price times the multiplier picked by the occupancy
ladder (≥0.9 → 1.5, ≥0.7 → 1.2, ≥0.5 → 1.0, ≥0.3 → 0.9, else 0.85),
confidence is always 0.75, and missing context fields default to base
price 100 and occupancy 0.5 (so an empty context yields price 100); in
particular base price 200 with occupancy 0.92 yields 300. -/
theorem optimize_price_ladder (ctx : OptimizeContext) :
    (optimize_price ctx).confidence = 75 / 100 ∧
    (let base := ctx.basePrice.getD 100
     let occ := ctx.currentOccupancy.getD (1 / 2)
     (9 / 10 ≤ occ → (optimize_price ctx).recommendedPrice = base * (3 / 2)) ∧
     (7 / 10 ≤ occ → occ < 9 / 10 →
       (optimize_price ctx).recommendedPrice = base * (12 / 10)) ∧
     (1 / 2 ≤ occ → occ < 7 / 10 → (optimize_price ctx).recommendedPrice = base * 1) ∧
     (3 / 10 ≤ occ → occ < 1 / 2 →
       (optimize_price ctx).recommendedPrice = base * (9 / 10)) ∧
     (occ < 3 / 10 → (optimize_price ctx).recommendedPrice = base * (85 / 100))) ∧
    (optimize_price ⟨none, none⟩).recommendedPrice = 100 ∧
    (optimize_price ⟨some 200, some (92 / 100)⟩).recommendedPrice = 300 ∧
    (optimize_price ⟨some 200, some (92 / 100)⟩).confidence = 75 / 100 := by
  refine ⟨rfl, ⟨?_, ?_, ?_, ?_, ?_⟩, by norm_num [optimize_price],
    by norm_num [optimize_price], rfl⟩
  all_goals
    intros
    simp only [optimize_price]
    split_ifs <;> first | rfl | linarith

/-- Witness for C5: the theorem applied to the concrete scenario of the
claim, base price 200 and occupancy 0.92, discharging the top rung of
the ladder. -/
theorem optimize_price_ladder_witness :
    (9 / 10 : ℚ) ≤
      ((⟨some 200, some (92 / 100)⟩ : OptimizeContext).currentOccupancy.getD (1 / 2)) ∧
    (optimize_price ⟨some 200, some (92 / 100)⟩).recommendedPrice =
      ((⟨some 200, some (92 / 100)⟩ : OptimizeContext).basePrice.getD 100) * (3 / 2) :=
  ⟨by norm_num,
   (optimize_price_ladder ⟨some 200, some (92 / 100)⟩).2.1.1 (by norm_num)⟩

/-- C9: every point produced by the fallback generator satisfies
0 ≤ lowerBound ≤ predictedValue ≤ upperBound ≤ 1, and its bounds equal
the clamped offsets clamp(predictedValue ∓ 0.1, 0, 1). -/
theorem fallback_bounds_invariant (s e : Nat) (pt : ForecastPointQ)
    (hmem : pt ∈ generate_fallback_forecast s e) :
    0 ≤ pt.lowerBound ∧ pt.lowerBound ≤ pt.predictedValue ∧
    pt.predictedValue ≤ pt.upperBound ∧ pt.upperBound ≤ 1 ∧
    pt.lowerBound = min (max (pt.predictedValue - 1 / 10) 0) 1 ∧
    pt.upperBound = min (max (pt.predictedValue + 1 / 10) 0) 1 := by
  rw [generate_fallback_forecast_eq] at hmem
  obtain ⟨d, _, rfl⟩ := List.mem_map.mp hmem
  simp only [fallbackPoint]
  set v := min (max (1 / 2 * seasonal_map (dateMonth d) * weekendFactor d) 0) 1 with hv
  have h0 : (0 : ℚ) ≤ v := le_min (le_max_right _ _) zero_le_one
  have h1 : v ≤ (1 : ℚ) := min_le_right _ _
  refine ⟨le_max_right _ _, max_le (by linarith) h0, le_min (by linarith) h1,
    min_le_right _ _, ?_, ?_⟩
  · rw [min_eq_left (max_le (by linarith) zero_le_one)]
  · rw [max_eq_left (by linarith)]

/-- Witness for C9: the theorem applied to the single point of the
concrete one-day range of 2024-07-06. -/
theorem fallback_bounds_invariant_witness :
    fallbackPoint 19910 ∈ generate_fallback_forecast 19910 19910 ∧
    (0 ≤ (fallbackPoint 19910).lowerBound ∧
     (fallbackPoint 19910).lowerBound ≤ (fallbackPoint 19910).predictedValue ∧
     (fallbackPoint 19910).predictedValue ≤ (fallbackPoint 19910).upperBound ∧
     (fallbackPoint 19910).upperBound ≤ 1 ∧
     (fallbackPoint 19910).lowerBound =
       min (max ((fallbackPoint 19910).predictedValue - 1 / 10) 0) 1 ∧
     (fallbackPoint 19910).upperBound =
       min (max ((fallbackPoint 19910).predictedValue + 1 / 10) 0) 1) := by
  have hmem : fallbackPoint 19910 ∈ generate_fallback_forecast 19910 19910 := by
    rw [generate_fallback_forecast_eq]
    simp [List.range'_succ]
  exact ⟨hmem, fallback_bounds_invariant 19910 19910 (fallbackPoint 19910) hmem⟩

/-- C6: the status of a training job is monotonic through
PENDING → IN_PROGRESS → (COMPLETED | FAILED): over every execution of
submission followed by the background task, consecutive status writes
follow only the forward chain, and a terminal status occurs only as the
last state, so no step leaves COMPLETED or FAILED. -/
theorem training_job_status_monotonic (mt : ModelType) (startedAt : String)
    (body : Except String TrainOutcome) :
    List.Chain' (fun a b => statusStep a b = true) (jobStatusTrace mt startedAt body) ∧
    ∀ i : Nat, ∀ hi : i < (jobStatusTrace mt startedAt body).length,
      isTerminal ((jobStatusTrace mt startedAt body).get ⟨i, hi⟩) = true →
        i + 1 = (jobStatusTrace mt startedAt body).length := by
  cases body with
  | ok r =>
    have htr : jobStatusTrace mt startedAt (Except.ok r) =
        [JobStatus.PENDING, JobStatus.IN_PROGRESS, JobStatus.COMPLETED] := rfl
    rw [htr]
    refine ⟨by simp [statusStep], ?_⟩
    intro i hi hterm
    simp only [List.length_cons, List.length_nil] at hi ⊢
    interval_cases i <;> simp_all [isTerminal]
  | error e =>
    have htr : jobStatusTrace mt startedAt (Except.error e) =
        [JobStatus.PENDING, JobStatus.IN_PROGRESS, JobStatus.FAILED] := rfl
    rw [htr]
    refine ⟨by simp [statusStep], ?_⟩
    intro i hi hterm
    simp only [List.length_cons, List.length_nil] at hi ⊢
    interval_cases i <;> simp_all [isTerminal]

/-- Witness for C6: the theorem applied to a concretely failing
background run; the terminal FAILED status sits at the last index of the
three-state trace. -/
theorem training_job_status_monotonic_witness :
    List.Chain' (fun a b => statusStep a b = true)
      (jobStatusTrace ModelType.prophet "t0" (Except.error "boom")) ∧
    2 + 1 = (jobStatusTrace ModelType.prophet "t0" (Except.error "boom")).length := by
  refine ⟨(training_job_status_monotonic ModelType.prophet "t0" (Except.error "boom")).1,
    (training_job_status_monotonic ModelType.prophet "t0" (Except.error "boom")).2 2 ?_ ?_⟩
  · simp [jobStatusTrace, train_model, train_model_background]
  · simp [jobStatusTrace, train_model, train_model_background, isTerminal]

/-- C7: when the background task's work raises (any failure during data
preparation, training or persistence, abstracted as the error outcome of
the try block), the task writes exactly the IN_PROGRESS state and then a
FAILED state carrying the exception message, and nothing propagates (the
task is a total function into registry states); the failure is
observable by a later status poll, which reports FAILED with the
message. -/
theorem background_failure_recorded (job : TrainingJob) (e : String) :
    ∃ j1 j2, train_model_background job (Except.error e) = [j1, j2] ∧
      j1.status = JobStatus.IN_PROGRESS ∧
      j2.status = JobStatus.FAILED ∧ j2.errorMessage = some e ∧
      ∀ job_id : String, get_training_status [(job_id, j2)] job_id =
        .ok { jobId := job_id, modelType := j2.modelType, status := JobStatus.FAILED,
              accuracy := j2.accuracy, mape := j2.mape, errorMessage := some e } := by
  refine ⟨_, _, rfl, rfl, rfl, rfl, ?_⟩
  intro job_id
  simp [get_training_status, List.lookup]

/-- C8: for both strategies, forecasting on an instance with no
successful train or load fails with the model-not-trained error, and
after a successful train or load the error cannot occur. -/
theorem forecast_requires_trained_model
    (periods : Nat) (seq data : List ℚ)
    (fitP : List (Nat × ℚ) → ProphetFitResult) (df : List (Nat × ℚ))
    (fitL : List (List ℚ × ℚ) → List (List ℚ × ℚ) → List ℚ → ℚ)
    (pf : ProphetForecaster) (lf g : LSTMForecaster)
    (pa : ProphetModel) (la : LSTMModel) :
    ProphetForecaster.init.forecast periods = .error .modelNotTrained ∧
    LSTMForecaster.init.forecast seq periods = .error .modelNotTrained ∧
    (ProphetForecaster.train fitP pf df).1.forecast periods ≠ .error .modelNotTrained ∧
    (pf.load pa).forecast periods ≠ .error .modelNotTrained ∧
    (LSTMForecaster.train fitL lf data = .ok g →
      g.forecast seq periods ≠ .error .modelNotTrained) ∧
    (lf.load la).forecast seq periods ≠ .error .modelNotTrained := by
  refine ⟨rfl, rfl, ?_, ?_, ?_, ?_⟩
  · simp [ProphetForecaster.train, ProphetForecaster.forecast]
  · simp [ProphetForecaster.load, ProphetForecaster.forecast]
  · intro htr
    unfold LSTMForecaster.train at htr
    cases hpd : lf.prepare_data data with
    | error err => rw [hpd] at htr; simp at htr
    | ok pr =>
      obtain ⟨⟨dmin, drange⟩, pairs⟩ := pr
      rw [hpd] at htr
      simp only at htr
      split_ifs at htr with hz
      simp only [Except.ok.injEq] at htr
      rw [← htr]
      simp [LSTMForecaster.forecast]
  · simp [LSTMForecaster.load, LSTMForecaster.forecast]

/-- Witness for C8: the theorem applied after a concretely successful
sequence-window training run (window length 1 over a two-point series),
whose forecast then does not raise the model-not-trained error. -/
theorem forecast_requires_trained_model_witness :
    LSTMForecaster.train (fun _ _ _ => 0) (LSTMForecaster.init 1) [0, 0] =
      .ok ⟨1, some ⟨fun _ => 0, 0, 1⟩⟩ ∧
    LSTMForecaster.forecast ⟨1, some ⟨fun _ => 0, 0, 1⟩⟩ [0] 1 ≠
      .error .modelNotTrained := by
  have htr : LSTMForecaster.train (fun _ _ _ => 0) (LSTMForecaster.init 1) [0, 0] =
      .ok ⟨1, some ⟨fun _ => 0, 0, 1⟩⟩ := by
    simp [LSTMForecaster.train, LSTMForecaster.prepare_data, LSTMForecaster.init,
      minMaxScale, listMin, listMax, handleZeros]
  exact ⟨htr,
    (forecast_requires_trained_model 1 [0] [0, 0]
      (fun _ => ⟨fun _ => ⟨0, 0, 0⟩, 0, 0⟩) [] (fun _ _ _ => 0)
      ProphetForecaster.init (LSTMForecaster.init 1) ⟨1, some ⟨fun _ => 0, 0, 1⟩⟩
      ⟨[], fun _ => ⟨0, 0, 0⟩⟩ ⟨fun _ => 0, 0, 1⟩).2.2.2.2.1 htr⟩

theorem filterMap_ite_eq {α β : Type} (p : α → Prop) [DecidablePred p] (g : α → β)
    (l : List α) :
    (l.filterMap fun a => if p a then some (g a) else none) =
      (l.filter fun a => decide (p a)).map g := by
  induction l with
  | nil => rfl
  | cons x xs ih => by_cases h : p x <;> simp [h, ih]

/-- C10: for every forecast request with non-empty historical data, the
returned forecast list is exactly the filter of the trained model's
extended timeline (the history dates followed by `periods` daily future
steps) to the dates inside [startDate, endDate], each point carrying the
model's prediction with confidence 0.8; consequently a request whose
historical dates all end long before startDate succeeds with fewer than
`periods` points — concretely, history at day 0 with the window
[200, 201] succeeds with an empty forecast list against periods = 2. -/
theorem generate_forecast_filters_timeline
    (fitP : List (Nat × ℚ) → ProphetFitResult) (request : ForecastRequestQ)
    (df : List (Nat × ℚ)) (hdf : request.historicalData = some df) (hne : df ≠ [])
    (hrange : request.startDate ≤ request.endDate) :
    (generate_forecast fitP request = .ok
      { forecast :=
          ((make_future_dataframe (history_dates df)
              (request.endDate + 1 - request.startDate)).filter fun d =>
                decide (request.startDate ≤ d ∧ d ≤ request.endDate)).map fun d =>
            ⟨d, ((fitP df).predict d).yhat, ((fitP df).predict d).yhat_lower,
              ((fitP df).predict d).yhat_upper, 8 / 10⟩,
        accuracy := some (1 - (fitP df).mape), mape := some (fitP df).mape }) ∧
    (generate_forecast fitP
        { propertyId := "p", startDate := 200, endDate := 201,
          historicalData := some [(0, 1)] }).map (fun r => r.forecast) =
      .ok ([] : List ForecastPointQ) ∧
    ([] : List ForecastPointQ).length < 201 + 1 - 200 := by
  refine ⟨?_, ?_, by decide⟩
  · obtain ⟨a, l, rfl⟩ := List.exists_cons_of_ne_nil hne
    simp only [generate_forecast, hdf, ProphetForecaster.train, ProphetForecaster.init,
      ProphetForecaster.forecast, List.filterMap_map]
    rw [show (fun r : Nat × ProphetPrediction =>
        if request.startDate ≤ r.1 ∧ r.1 ≤ request.endDate then
          some (⟨r.1, r.2.yhat, r.2.yhat_lower, r.2.yhat_upper, 8 / 10⟩ : ForecastPointQ)
        else none) ∘ (fun d => (d, (fitP (a :: l)).predict d)) =
      fun d => if request.startDate ≤ d ∧ d ≤ request.endDate then
          some (⟨d, ((fitP (a :: l)).predict d).yhat, ((fitP (a :: l)).predict d).yhat_lower,
            ((fitP (a :: l)).predict d).yhat_upper, 8 / 10⟩ : ForecastPointQ)
        else none from rfl]
    rw [filterMap_ite_eq]
  · norm_num [generate_forecast, ProphetForecaster.train, ProphetForecaster.init,
      ProphetForecaster.forecast, make_future_dataframe, history_dates,
      List.insertionSort, List.orderedInsert, List.filterMap_map, List.range,
      List.range.loop, Except.map]

/-- Witness for C10: the theorem applied to a concrete request whose
two-day window lies far after its single historical observation, with a
concrete fit oracle. -/
theorem generate_forecast_filters_timeline_witness :
    (⟨"p", 200, 201, some [(0, 1)]⟩ : ForecastRequestQ).historicalData = some [(0, 1)] ∧
    ([(0, 1)] : List (Nat × ℚ)) ≠ [] ∧
    (⟨"p", 200, 201, some [(0, 1)]⟩ : ForecastRequestQ).startDate ≤
      (⟨"p", 200, 201, some [(0, 1)]⟩ : ForecastRequestQ).endDate ∧
    (generate_forecast (fun _ => ⟨fun _ => ⟨0, 0, 0⟩, 0, 0⟩)
        (⟨"p", 200, 201, some [(0, 1)]⟩ : ForecastRequestQ)).map (fun r => r.forecast) =
      .ok ([] : List ForecastPointQ) :=
  ⟨rfl, by simp, by decide,
   (generate_forecast_filters_timeline (fun _ => ⟨fun _ => ⟨0, 0, 0⟩, 0, 0⟩)
     ⟨"p", 200, 201, some [(0, 1)]⟩ [(0, 1)] rfl (by simp) (by decide)).2.1⟩
